import Mathlib

set_option maxHeartbeats 1000000
set_option maxRecDepth 16384

/-!
Shallow embedding of the `bots-fastapi-email-service` repository.

The repository consists of two FastAPI services and shared helpers:
* `src/main.py` — the transactional email service (routes `/`, `/debug`,
  `/api/send-email`), with its own SMTP sender `send_email_via_smtp` and a
  template dispatcher `get_email_template` (plus fallback templates used when
  the template modules cannot be imported);
* `src/src/main.py` — the log & notification service (routes `/`,
  `/send-log-email`, `/send-no-logs-email`, `/send-notification-email`);
* `src/src/email_service/send_email.py` — the shared SMTP sender and two
  convenience wrappers;
* `src/src/email_service/logger_config.py` — `get_logger`;
* `src/src/cron/keep_alive.py` — `keep_alive_job`;
* `src/src/email_templates/device_verification.py` — the device-verification
  template renderer.

External effects (opening an SMTP session, logging in, transmitting, issuing
an HTTP GET, rendering a PDF) are modelled by an oracle describing the
outcome of each step together with an explicit effect trace recording which
side-effecting operations the code performed, in order.  Python string
truthiness (`not x` for `Optional[str]`) is modelled by `truthy`.
-/

/-- Python truthiness for an optional string: `None` and `""` are falsy. -/
def truthy : Option String → Bool
  | none => false
  | some s => s != ""

/-- Lookup in an association list, first match wins; models both
`os.getenv` over the process environment and `dict.get` over a request's
data mapping. -/
def assocLookup (env : List (String × String)) (k : String) : Option String :=
  (env.find? (fun p => p.1 == k)).map (fun p => p.2)

/-- `data.get(k, dflt)` on a string-valued mapping. -/
def dataGet (data : List (String × String)) (k dflt : String) : String :=
  (assocLookup data k).getD dflt

/-- Is `pat` a contiguous infix of the second list? -/
def listInfixB (pat : List Char) : List Char → Bool
  | [] => pat.isEmpty
  | a :: rest => pat.isPrefixOf (a :: rest) || listInfixB pat rest

/-- Boolean substring test: does `pat` occur contiguously inside `s`?
Models Python's `pat in s`. -/
def strContainsB (s pat : String) : Bool :=
  listInfixB pat.data s.data

/-- Substring occurrence as a proposition: `sub` occurs contiguously in `s`. -/
def containsStr (s sub : String) : Prop :=
  ∃ a b : String, s = a ++ (sub ++ b)

/-- Python's `str.strip()`: drop leading and trailing whitespace characters
(over the ASCII whitespace the strings at hand contain). -/
def pyStrip (s : String) : String :=
  ⟨((s.data.dropWhile Char.isWhitespace).reverse.dropWhile Char.isWhitespace).reverse⟩

/-- The process configuration, as read at module load time:
`EMAIL_SENDER` / `EMAIL_PASSWORD` (absent when the variable is unset),
`SMTP_SERVER` (defaulted) and `SMTP_PORT` (defaulted), from
`src/src/email_service/send_email.py` lines 13–16. -/
structure Config where
  emailSender : Option String
  emailPassword : Option String
  smtpServer : String
  smtpPort : Nat
deriving DecidableEq, Repr

/-- `int()` on a decimal numeral string; `none` on anything else. -/
def parseNat (s : String) : Option Nat :=
  if s.data.isEmpty then none
  else if s.data.all Char.isDigit then
    some (s.data.foldl (fun n c => 10 * n + (c.toNat - 48)) 0)
  else none

/-- Resolution of the configuration from an environment
(`os.getenv` with defaults, `int(...)` on the port; `none` when the port
string is not a numeral, in which case the Python module fails to load). -/
def resolveConfig (env : List (String × String)) : Option Config :=
  match parseNat ((assocLookup env "SMTP_PORT").getD "465") with
  | none => none
  | some p => some
      { emailSender := assocLookup env "EMAIL_SENDER"
        emailPassword := assocLookup env "EMAIL_PASSWORD"
        smtpServer := (assocLookup env "SMTP_SERVER").getD "smtp.gmail.com"
        smtpPort := p }

/-- Outcome oracle for one SMTP interaction: whether building/serialising the
MIME message succeeds, whether the SSL connection is established, whether
`login` succeeds at the server (given credentials that reach it), and whether
the transmission succeeds. -/
structure SmtpOracle where
  encodeOk : Bool
  connectOk : Bool
  loginOk : Bool
  sendOk : Bool
deriving DecidableEq, Repr

/-- Side effects the code can perform, recorded in order in a trace. -/
inductive Effect where
  | configCheck
  | templateRender (kind : String)
  | smtpConnect (host : String) (port : Nat)
  | smtpLogin
  | smtpSend
  | pdfRender
deriving DecidableEq, Repr

/-- Result of one HTTP handler invocation: a 200 body message, or an
`HTTPException(status_code, detail)`. -/
inductive ApiResponse where
  | ok (message : String)
  | error (status : Nat) (detail : String)
deriving DecidableEq, Repr

/-- Output of a template renderer: subject, plain-text body, HTML body. -/
structure TemplateResult where
  subject : String
  text : String
  html : String
deriving DecidableEq, Repr

namespace EmailService

/-- Body of the `try:` block of `send_email`
(`src/src/email_service/send_email.py` lines 23–48): builds the message,
opens an SSL session to the *configured* host and port, logs in with the
module-level credentials, transmits.  Returns the exception outcome of the
block together with the trace of SMTP operations attempted.  `login(None, _)`
or `login(_, None)` raises inside `smtplib` before any server exchange, hence
the `isSome` requirements on the credentials. -/
def sendEmailSteps (cfg : Config) (o : SmtpOracle)
    (receiver subject plain html : String)
    (attachments : List (List Nat × String)) :
    Except String Unit × List Effect :=
  let _ := (receiver, subject, plain, html, attachments)
  if o.encodeOk then
    if o.connectOk then
      if cfg.emailSender.isSome && cfg.emailPassword.isSome && o.loginOk then
        if o.sendOk then
          (Except.ok (), [Effect.smtpConnect cfg.smtpServer cfg.smtpPort,
            Effect.smtpLogin, Effect.smtpSend])
        else
          (Except.error "send failed", [Effect.smtpConnect cfg.smtpServer cfg.smtpPort,
            Effect.smtpLogin, Effect.smtpSend])
      else
        (Except.error "login failed", [Effect.smtpConnect cfg.smtpServer cfg.smtpPort,
          Effect.smtpLogin])
    else
      (Except.error "connect failed", [Effect.smtpConnect cfg.smtpServer cfg.smtpPort])
  else
    (Except.error "encode failed", [])

/-- `send_email` (`src/src/email_service/send_email.py` lines 19–51): the
`try:` body wrapped in `except Exception: return False` — every failure is
converted to `False`, success returns `True`. -/
def send_email (cfg : Config) (o : SmtpOracle)
    (receiver subject plain html : String)
    (attachments : List (List Nat × String)) : Bool × List Effect :=
  let r := sendEmailSteps cfg o receiver subject plain html attachments
  (match r.1 with
   | Except.ok _ => true
   | Except.error _ => false, r.2)

/-- `send_no_logs_email` (lines 54–58). -/
def send_no_logs_email (cfg : Config) (o : SmtpOracle)
    (receiver date : String) : Bool × List Effect :=
  send_email cfg o receiver
    ("No Logs Available - " ++ date)
    ("No logs were generated for " ++ date ++ ".")
    ("<html><body><h2>No Logs Available</h2><p>No logs were generated for "
      ++ date ++ ".</p></body></html>")
    []

/-- `send_notification_email` (lines 61–65). -/
def send_notification_email (cfg : Config) (o : SmtpOracle)
    (receiver message : String) : Bool × List Effect :=
  send_email cfg o receiver
    "Notification - Divinely Bot"
    ("Notification:\n\n" ++ message)
    ("<html><body><h2>Notification - Divinely Bot</h2><p>" ++ message
      ++ "</p></body></html>")
    []

end EmailService

namespace Transactional

/-- `send_email_via_smtp` (`src/main.py` lines 112–147): returns `False`
without touching the network when either credential is falsy; otherwise
connects to the hard-coded `('smtp.gmail.com', 465)`, logs in, sends; any
exception is caught and converted to `False`. -/
def send_email_via_smtp (cfg : Config) (o : SmtpOracle)
    (toAddr subject textContent htmlContent : String) : Bool × List Effect :=
  let _ := (toAddr, subject, textContent, htmlContent)
  if truthy cfg.emailSender && truthy cfg.emailPassword then
    if o.connectOk then
      if o.loginOk then
        if o.sendOk then
          (true, [Effect.smtpConnect "smtp.gmail.com" 465,
            Effect.smtpLogin, Effect.smtpSend])
        else
          (false, [Effect.smtpConnect "smtp.gmail.com" 465,
            Effect.smtpLogin, Effect.smtpSend])
      else
        (false, [Effect.smtpConnect "smtp.gmail.com" 465, Effect.smtpLogin])
    else
      (false, [Effect.smtpConnect "smtp.gmail.com" 465])
  else
    (false, [])

end Transactional

/-- `device_verification_template`
(`src/src/email_templates/device_verification.py`).  Field reads are
`data.get(key, default)`; `supportEmail` defaults to
`"support@quantumrobots.com"` and `year` (read inline in the HTML footer)
defaults to `"2024"`; every other field defaults to `""`.  The Python source
applies `.strip()` to the text body, whose two margins are the constant
whitespace `"\n"` and `"\n    "`; the definition below gives the text with
those constant margins already removed. -/
def device_verification_template (data : List (String × String)) : TemplateResult :=
  let username := dataGet data "username" ""
  let device_info := dataGet data "deviceInfo" ""
  let ip := dataGet data "ip" ""
  let country := dataGet data "country" ""
  let timestamp := dataGet data "timestamp" ""
  let verification_code := dataGet data "verificationCode" ""
  let support_email := dataGet data "supportEmail" "support@quantumrobots.com"
  let year := dataGet data "year" "2024"
  let subject := "Device Verification Code - Quantum Robots"
  let text :=
    "Device Verification Required - Quantum Robots\n\nHello " ++ username ++
    ",\n\nA login attempt was detected from a new device. To complete your login, please use the verification code below:\n\nVerification Code: " ++
    verification_code ++
    "\n\nLogin Details:\n- Device: " ++ device_info ++
    "\n- IP Address: " ++ ip ++
    "\n- Location: " ++ country ++
    "\n- Time: " ++ timestamp ++
    "\n\nEnter this code in the verification prompt on your new device.\n\n" ++
    "This code will expire in 10 minutes." ++
    "\n\n" ++
    "If you didn\x27t attempt to log in from this device, please ignore this email." ++
    "\n\nNeed help? Contact " ++
    support_email
  let html :=
    "\n<!DOCTYPE html>\n<html>\n<head>\n    <meta charset=\"utf-8\">\n    <meta name=\"viewport\" content=\"width=device-width, initial-scale=1.0\">\n    <title>Device Verification - Quantum Robots</title>\n</head>\n<body style=\"margin:0; padding:0; font-family: Arial, sans-serif; background-color:#f4f7fb;\">\n  <table width=\"100%\" border=\"0\" cellspacing=\"0\" cellpadding=\"0\" style=\"padding:20px 0;\">\n    <tr>\n      <td align=\"center\">\n        <table width=\"600\" border=\"0\" cellspacing=\"0\" cellpadding=\"0\" style=\"background:#ffffff; border-radius:12px; box-shadow:0 4px 12px rgba(0,0,0,0.1); overflow:hidden;\">\n          <tr>\n            <td align=\"center\" style=\"background: #000000; padding:30px; color:#00ff41; font-size:24px; font-weight:bold;\">\n              QUANTUM ROBOTS\n            </td>\n          </tr>\n          <tr>\n            <td style=\"padding:30px; color:#333333; font-size:16px; line-height:1.6;\">\n              <h2 style=\"margin-top:0; color:#000000;\">Device Verification Required</h2>\n              <p>Hello " ++
    username ++
    ",</p>\n              <p>A login attempt was detected from a new device. To complete your login, please use the verification code below:</p>\n              <div style=\"text-align:center; margin:30px 0;\">\n                <div style=\"background:#000000; color:#00ff41; padding:20px; text-align:center; font-size:32px; font-weight:bold; letter-spacing:5px; border-radius:10px; margin:20px 0; font-family: \x27Courier New\x27, monospace;\">\n                  " ++
    verification_code ++
    "\n                </div>\n              </div>\n              <div style=\"background:#f8f8f8; border-left:4px solid #00ff41; padding:15px; margin:15px 0;\">\n                <h3 style=\"margin-top:0; color:#000000;\">Login Attempt Details:</h3>\n                <p><strong>Device:</strong> " ++
    device_info ++
    "</p>\n                <p><strong>IP Address:</strong> " ++ ip ++
    "</p>\n                <p><strong>Location:</strong> " ++ country ++
    "</p>\n                <p><strong>Time:</strong> " ++ timestamp ++
    "</p>\n              </div>\n              <p><strong>" ++
    "This code will expire in 10 minutes." ++
    "</strong></p>\n              <p>" ++
    "If you didn\x27t attempt to log in from this device, please ignore this email." ++
    "</p>\n            </td>\n          </tr>\n          <tr>\n            <td align=\"center\" style=\"background:#000000; color:#00ff41; padding:20px; font-size:13px;\">\n              &copy; " ++
    year ++
    " Quantum Robots. All rights reserved.<br/>\n              Need help? <a href=\"mailto:" ++
    support_email ++
    "\" style=\"color:#00ff41; text-decoration:none;\">Contact Support</a>\n            </td>\n          </tr>\n        </table>\n      </td>\n    </tr>\n  </table>\n</body>\n</html>\n    "
  { subject := subject, text := text, html := html }

namespace Transactional

/-- Fallback `email_verification_template` (`src/main.py` lines 80–85),
bound when the template modules fail to import. -/
def email_verification_template (data : List (String × String)) : TemplateResult :=
  { subject := "Verify Your Email"
    text := "Your verification code is: " ++ dataGet data "code" "N/A"
    html := "<h1>Your verification code is: " ++ dataGet data "code" "N/A" ++ "</h1>" }

/-- Fallback `device_verification_template` (`src/main.py` lines 87–92). -/
def fallback_device_verification_template (data : List (String × String)) : TemplateResult :=
  { subject := "New Device Verification"
    text := "Verification code: " ++ dataGet data "code" "N/A" ++ " for device: "
      ++ dataGet data "device_name" "Unknown"
    html := "<h1>Device Verification</h1><p>Code: " ++ dataGet data "code" "N/A"
      ++ "</p><p>Device: " ++ dataGet data "device_name" "Unknown" ++ "</p>" }

/-- Fallback `password_reset_template` (`src/main.py` lines 94–99). -/
def password_reset_template (data : List (String × String)) : TemplateResult :=
  { subject := "Password Reset"
    text := "Reset your password using this link: " ++ dataGet data "reset_link" "N/A"
    html := "<h1>Password Reset</h1><p><a href=\x27" ++ dataGet data "reset_link" "#"
      ++ "\x27>Click here to reset your password</a></p>" }

/-- Request body of `POST /api/send-email` (`src/main.py` lines 63–66).
The `to` field is spelled `toAddr` because `to` is reserved here. -/
structure EmailRequest where
  type : String
  toAddr : String
  data : List (String × String)
deriving DecidableEq, Repr

/-- `get_email_template` (`src/main.py` lines 101–110), parameterised over
the three template functions actually bound at import time (either the
template modules or the in-file fallbacks).  An unknown type raises
`ValueError(f"Unknown email type: ...")`, modelled by `Except.error`. -/
def get_email_template (ev dv pr : List (String × String) → TemplateResult)
    (email_type : String) (data : List (String × String)) :
    Except String TemplateResult :=
  if email_type == "email_verification" then Except.ok (ev data)
  else if email_type == "device_verification" then Except.ok (dv data)
  else if email_type == "password_reset" then Except.ok (pr data)
  else Except.error ("Unknown email type: " ++ email_type)

/-- The `POST /api/send-email` handler `send_email` (`src/main.py`
lines 175–219): field validation (Python truthiness: empty string or empty
dict fails) → 400; configuration check → 500; template resolution
(`ValueError` caught → 400); dispatch via `send_email_via_smtp`; send
failure → 500; success → 200. -/
def send_email (ev dv pr : List (String × String) → TemplateResult)
    (cfg : Config) (o : SmtpOracle) (r : EmailRequest) :
    ApiResponse × List Effect :=
  if r.type == "" || r.toAddr == "" || r.data.isEmpty then
    (ApiResponse.error 400 "Missing required fields: type, to, or data", [])
  else if !(truthy cfg.emailSender && truthy cfg.emailPassword) then
    (ApiResponse.error 500 "Email service not configured - Environment variables missing",
      [Effect.configCheck])
  else
    match get_email_template ev dv pr r.type r.data with
    | Except.error msg => (ApiResponse.error 400 msg, [Effect.configCheck])
    | Except.ok tpl =>
      let s := send_email_via_smtp cfg o r.toAddr tpl.subject tpl.text tpl.html
      if s.1 then
        (ApiResponse.ok "Email sent successfully",
          Effect.configCheck :: Effect.templateRender r.type :: s.2)
      else
        (ApiResponse.error 500 "Failed to send email",
          Effect.configCheck :: Effect.templateRender r.type :: s.2)

/-- The transactional service's route table: the decorators
`@app.get("/")` (line 149), `@app.get("/debug")` (line 161) and
`@app.post("/api/send-email")` (line 175) are the only routes registered. -/
def routes : List (String × String) :=
  [("GET", "/"), ("GET", "/debug"), ("POST", "/api/send-email")]

/-- Shape of the `/debug` response (`src/main.py` lines 164–173).  The
source keys are `email_configured`, `EMAIL_SENDER_set`, `EMAIL_PASSWORD_set`
and `environment_variables`. -/
structure DebugResponse where
  email_configured : Bool
  emailSenderSet : Bool
  emailPasswordSet : Bool
  environment_variables : List (String × String)
deriving DecidableEq, Repr

/-- `debug_env` (`src/main.py` lines 161–173): three booleans from the
loaded credentials, plus every environment variable whose name contains
`EMAIL`, `SMTP` or `RAILWAY`, with the value replaced by `"*****"` when the
name contains `PASSWORD` and passed through verbatim otherwise. -/
def debug_env (env : List (String × String)) : DebugResponse :=
  let sender := assocLookup env "EMAIL_SENDER"
  let password := assocLookup env "EMAIL_PASSWORD"
  { email_configured := truthy sender && truthy password
    emailSenderSet := truthy sender
    emailPasswordSet := truthy password
    environment_variables :=
      (env.filter (fun kv =>
          strContainsB kv.1 "EMAIL" || strContainsB kv.1 "SMTP" ||
            strContainsB kv.1 "RAILWAY")).map
        (fun kv => (kv.1, if strContainsB kv.1 "PASSWORD" then "*****" else kv.2)) }

end Transactional

namespace LogService

/-- Request body of `POST /send-log-email` (`src/src/main.py` lines 64–67).
`logContent` is `Optional[str] = None`; `fileName` defaults to
`"logs.pdf"` at parse time. -/
structure LogRequest where
  logContent : Option String
  fileName : String
  recipientEmail : String
deriving DecidableEq, Repr

/-- Request body of `POST /send-notification-email` (lines 69–71). -/
structure NotificationEmailRequest where
  receiverEmail : String
  message : String
deriving DecidableEq, Repr

/-- Request body of `POST /send-no-logs-email` (lines 73–75);
`date` defaults to `""`. -/
structure NoLogsEmailRequest where
  recipientEmail : String
  date : String
deriving DecidableEq, Repr

/-- The `POST /send-log-email` handler `send_log_email` (`src/src/main.py`
lines 129–174).  The PDF renderer `log_to_pdf_bytes` (reportlab, an external
capability) is passed in as `pdfFn`; the result of `gather_service_logs`
(local filesystem reads) is passed in as `serviceLogs`.  Python rejects the
request with 400 when `logContent` is `None`, `""`, or strips to `""`
(`pyStrip` models `str.strip`); otherwise it renders the PDF, collects
the service logs, and dispatches one composite email through the shared
sender — with no configuration check of its own. -/
def send_log_email (cfg : Config) (o : SmtpOracle)
    (pdfFn : String → String → String → List Nat)
    (serviceLogs : List (List Nat × String))
    (r : LogRequest) : ApiResponse × List Effect :=
  match r.logContent with
  | none => (ApiResponse.error 400 "Empty log content received.", [])
  | some c =>
    if pyStrip c == "" then
      (ApiResponse.error 400 "Empty log content received.", [])
    else
      let node_pdf_bytes := pdfFn "Node.js Logs" ("File: " ++ r.fileName) c
      let attachments := (node_pdf_bytes, "nodejs-" ++ r.fileName ++ ".pdf") :: serviceLogs
      let subject := "📄 Logs Received - " ++ r.fileName
      let plain_body := "Attached are the logs collected from Node.js and the email service."
      let html_body := "\n    <html>\n      <body>\n        <h2>Logs Received</h2>\n        <p>The attached PDF files contain logs from:</p>\n        <ul>\n          <li><b>Node.js logger</b></li>\n          <li><b>FastAPI service</b> (if available)</li>\n        </ul>\n      </body>\n    </html>\n    "
      let s := EmailService.send_email cfg o r.recipientEmail subject plain_body
        html_body attachments
      if s.1 then
        (ApiResponse.ok ("Logs (Node.js + service) sent as PDFs to " ++ r.recipientEmail),
          Effect.pdfRender :: s.2)
      else
        (ApiResponse.error 500 "Failed to send email", Effect.pdfRender :: s.2)

/-- The `POST /send-no-logs-email` handler `send_no_logs` (lines 176–184):
delegates to the no-logs sender; a `False` result raises
`HTTPException(500)`, re-wrapped by the surrounding `except` with the same
status. -/
def send_no_logs (cfg : Config) (o : SmtpOracle) (r : NoLogsEmailRequest) :
    ApiResponse × List Effect :=
  let s := EmailService.send_no_logs_email cfg o r.recipientEmail r.date
  if s.1 then (ApiResponse.ok "No-logs email sent successfully", s.2)
  else (ApiResponse.error 500 "Failed to send no-logs email", s.2)

/-- The `POST /send-notification-email` handler `send_notification`
(lines 186–194). -/
def send_notification (cfg : Config) (o : SmtpOracle)
    (r : NotificationEmailRequest) : ApiResponse × List Effect :=
  let s := EmailService.send_notification_email cfg o r.receiverEmail r.message
  if s.1 then (ApiResponse.ok "Notification email sent successfully", s.2)
  else (ApiResponse.error 500 "Failed to send notification email", s.2)

end LogService

namespace KeepAlive

/-- The observable outcome of one `requests.get` against the liveness URL:
an HTTP status code, or a transport-level error (timeout, DNS, refused). -/
inductive PingOutcome where
  | status (code : Nat)
  | transportError
deriving DecidableEq, Repr

/-- The inner `send_keep_alive` (`src/src/cron/keep_alive.py` lines 16–39):
returns normally on a 200 response and raises (`ValueError` or the transport
exception, re-raised after logging) otherwise. -/
def send_keep_alive (o : PingOutcome) : Except String Unit :=
  match o with
  | PingOutcome.status c =>
    if c == 200 then Except.ok ()
    else Except.error ("Status code: " ++ toString c)
  | PingOutcome.transportError => Except.error "request error"

/-- The retry loop of `keep_alive_job` (lines 41–54): up to `fuel` attempts
starting at attempt index `i`; a raising attempt is caught, and retried
unless it was the last one.  Returns the list of GET outcomes observed, in
order — one entry per HTTP request actually issued. -/
def keepAliveLoop (responses : Nat → PingOutcome) : Nat → Nat → List PingOutcome
  | _, 0 => []
  | i, fuel + 1 =>
    match send_keep_alive (responses i) with
    | Except.ok _ => [responses i]
    | Except.error _ =>
      if fuel = 0 then [responses i]
      else responses i :: keepAliveLoop responses (i + 1) fuel

/-- `keep_alive_job` (`src/src/cron/keep_alive.py` lines 10–54): when
`API_URL` is unset it logs and returns with no request issued; otherwise it
runs the 3-attempt loop.  Every exception of an attempt is caught inside the
loop, so the job's own outcome is always `Except.ok` — it never raises to
its invoker; the payload is the list of GET outcomes observed. -/
def keep_alive_job (url : Option String) (responses : Nat → PingOutcome) :
    Except String (List PingOutcome) :=
  match url with
  | none => Except.ok []
  | some _ => Except.ok (keepAliveLoop responses 0 3)

end KeepAlive

namespace LoggerConfig

/-- One registered logging handler (an "output sink"): a console stream
handler, or a midnight-rotated file handler with a backup count. -/
inductive Sink where
  | console (level : Nat)
  | timedFile (path : String) (backupCount : Nat) (level : Nat)
deriving DecidableEq, Repr

/-- The global logger registry (`logging.getLogger` is memoised per name):
the handlers currently attached to each name. -/
def LoggerState := String → List Sink

/-- `get_logger` (`src/src/email_service/logger_config.py` lines 13–39):
fetch the logger for `name`; if it already has handlers, return it
unchanged; otherwise attach exactly one handler — a console handler when
the lowered `ENVIRONMENT` equals `"development"`, else a
midnight-rotating file handler on `logs/<name>.log` with `backupCount=14`.
Returns the logger's handler list together with the updated registry. -/
def get_logger (envLabel : String) (s : LoggerState) (name : String)
    (level : Nat) : List Sink × LoggerState :=
  let hs := s name
  if hs.isEmpty then
    let h := if envLabel == "development" then Sink.console level
      else Sink.timedFile ("logs/" ++ name ++ ".log") 14 level
    ([h], fun n => if n == name then [h] else s n)
  else (hs, s)

/-- The module-level `ENV` value: `os.getenv("ENVIRONMENT",
"development").lower()`. -/
def loggerEnv (env : List (String × String)) : String :=
  ((assocLookup env "ENVIRONMENT").getD "development").toLower

end LoggerConfig

/-- A configuration with both credentials unset. -/
def cfgUnset : Config :=
  { emailSender := none, emailPassword := none,
    smtpServer := "smtp.gmail.com", smtpPort := 465 }

/-- A fully configured configuration with the default SMTP target. -/
def cfgFull : Config :=
  { emailSender := some "sender@example.com", emailPassword := some "secret",
    smtpServer := "smtp.gmail.com", smtpPort := 465 }

/-- A fully configured configuration with a non-default SMTP target. -/
def cfgCustom : Config :=
  { emailSender := some "sender@example.com", emailPassword := some "secret",
    smtpServer := "mail.example.com", smtpPort := 2525 }

/-- An oracle under which every SMTP step succeeds. -/
def oracleAllOk : SmtpOracle :=
  { encodeOk := true, connectOk := true, loginOk := true, sendOk := true }

/-- Did an `Except` computation succeed? -/
def isOkB : Except String TemplateResult → Bool
  | Except.ok _ => true
  | Except.error _ => false

theorem containsStr_refl (sub : String) : containsStr sub sub :=
  ⟨"", "", by simp⟩

theorem containsStr_left (s t sub : String) (h : containsStr s sub) :
    containsStr (s ++ t) sub := by
  obtain ⟨a, b, rfl⟩ := h
  exact ⟨a, b ++ t, by simp [String.append_assoc]⟩

theorem containsStr_right (s t sub : String) (h : containsStr t sub) :
    containsStr (s ++ t) sub := by
  obtain ⟨a, b, rfl⟩ := h
  exact ⟨s ++ a, b, by simp [String.append_assoc]⟩

/-- With either credential absent, the shared sender always fails on the
build-succeeded path, yet an SMTP session to the configured host/port is
still opened. -/
theorem sendEmail_unset_fails (cfg : Config) (o : SmtpOracle)
    (receiver subject plain html : String) (atts : List (List Nat × String))
    (hunset : cfg.emailSender = none ∨ cfg.emailPassword = none)
    (henc : o.encodeOk = true) :
    (EmailService.send_email cfg o receiver subject plain html atts).1 = false ∧
    Effect.smtpConnect cfg.smtpServer cfg.smtpPort ∈
      (EmailService.send_email cfg o receiver subject plain html atts).2 := by
  rcases hunset with h | h <;>
    cases hc : o.connectOk <;>
      simp [EmailService.send_email, EmailService.sendEmailSteps, henc, hc, h]

/-- C1 counterexample: the transactional service registers no `/debug-env`
route, and the `/debug` response includes the verbatim value of the
configuration variable `EMAIL_SENDER`. -/
theorem c1_counterexample :
    ("GET", "/debug-env") ∉ Transactional.routes ∧
    ("EMAIL_SENDER", "alice@example.com") ∈
      (Transactional.debug_env
        [("EMAIL_SENDER", "alice@example.com")]).environment_variables := by
  decide

/-- C1 (amended): the transactional service's debug endpoint is exposed only
at `/debug` (there is no `/debug-env` route); its response carries the three
configuration booleans, plus a mapping of every environment variable whose
name contains `EMAIL`, `SMTP` or `RAILWAY` — masked as `"*****"` when the
name contains `PASSWORD` and reported with its verbatim value otherwise —
and no environment label. -/
theorem c1_debug_endpoint :
    (("GET", "/debug") ∈ Transactional.routes ∧
      ("GET", "/debug-env") ∉ Transactional.routes) ∧
    ∀ env : List (String × String),
      (Transactional.debug_env env).email_configured =
        (truthy (assocLookup env "EMAIL_SENDER") &&
          truthy (assocLookup env "EMAIL_PASSWORD")) ∧
      (Transactional.debug_env env).emailSenderSet =
        truthy (assocLookup env "EMAIL_SENDER") ∧
      (Transactional.debug_env env).emailPasswordSet =
        truthy (assocLookup env "EMAIL_PASSWORD") ∧
      ∀ kv ∈ (Transactional.debug_env env).environment_variables,
        (strContainsB kv.1 "EMAIL" || strContainsB kv.1 "SMTP" ||
          strContainsB kv.1 "RAILWAY") = true ∧
        (strContainsB kv.1 "PASSWORD" = true → kv.2 = "*****") ∧
        (strContainsB kv.1 "PASSWORD" = false → kv ∈ env) := by
  refine ⟨⟨by decide, by decide⟩, fun env => ⟨rfl, rfl, rfl, ?_⟩⟩
  intro kv hkv
  simp only [Transactional.debug_env, List.mem_map, List.mem_filter] at hkv
  obtain ⟨ab, ⟨hmem, hflt⟩, rfl⟩ := hkv
  refine ⟨hflt, ?_, ?_⟩
  · intro hpw
    simp [hpw]
  · intro hpw
    simpa [hpw] using hmem

/-- C2 counterexample: with both credentials unset, a valid
`POST /send-log-email` request still opens an SMTP session (to the
configured host/port) and fails as SendFailed, not Unconfigured. -/
theorem c2_counterexample :
    (LogService.send_log_email cfgUnset oracleAllOk (fun _ _ _ => []) []
        { logContent := some "hello", fileName := "logs.pdf",
          recipientEmail := "ops@example.com" }).1 =
      ApiResponse.error 500 "Failed to send email" ∧
    Effect.smtpConnect "smtp.gmail.com" 465 ∈
      (LogService.send_log_email cfgUnset oracleAllOk (fun _ _ _ => []) []
        { logContent := some "hello", fileName := "logs.pdf",
          recipientEmail := "ops@example.com" }).2 := by
  decide

/-- C2 (amended): with the sender address or credential absent, the
transactional service's `/api/send-email` (on a field-valid request) fails
with the Unconfigured 500 and attempts no SMTP operation; the log service's
three mail-sending endpoints perform no configuration check — the send is
attempted anyway, an SMTP session is opened (whenever message building
succeeds), the login fails, and each endpoint returns a SendFailed 500. -/
theorem c2_unconfigured (cfg : Config) (o : SmtpOracle)
    (ev dv pr : List (String × String) → TemplateResult)
    (r : Transactional.EmailRequest) (lr : LogService.LogRequest)
    (nr : LogService.NoLogsEmailRequest) (mr : LogService.NotificationEmailRequest)
    (pdfFn : String → String → String → List Nat)
    (serviceLogs : List (List Nat × String))
    (hunset : cfg.emailSender = none ∨ cfg.emailPassword = none)
    (henc : o.encodeOk = true)
    (hty : r.type ≠ "") (hto : r.toAddr ≠ "") (hdata : r.data ≠ [])
    (hlog : ∃ c, lr.logContent = some c ∧ pyStrip c ≠ "") :
    Transactional.send_email ev dv pr cfg o r =
      (ApiResponse.error 500 "Email service not configured - Environment variables missing",
        [Effect.configCheck]) ∧
    ((LogService.send_log_email cfg o pdfFn serviceLogs lr).1 =
        ApiResponse.error 500 "Failed to send email" ∧
      Effect.smtpConnect cfg.smtpServer cfg.smtpPort ∈
        (LogService.send_log_email cfg o pdfFn serviceLogs lr).2) ∧
    ((LogService.send_no_logs cfg o nr).1 =
        ApiResponse.error 500 "Failed to send no-logs email" ∧
      Effect.smtpConnect cfg.smtpServer cfg.smtpPort ∈
        (LogService.send_no_logs cfg o nr).2) ∧
    ((LogService.send_notification cfg o mr).1 =
        ApiResponse.error 500 "Failed to send notification email" ∧
      Effect.smtpConnect cfg.smtpServer cfg.smtpPort ∈
        (LogService.send_notification cfg o mr).2) := by
  obtain ⟨c, hcsome, hct⟩ := hlog
  have h1 : ∀ receiver subject plain html atts,
      (EmailService.send_email cfg o receiver subject plain html atts).1 = false :=
    fun receiver subject plain html atts =>
      (sendEmail_unset_fails cfg o receiver subject plain html atts hunset henc).1
  have h2 : ∀ receiver subject plain html atts,
      Effect.smtpConnect cfg.smtpServer cfg.smtpPort ∈
        (EmailService.send_email cfg o receiver subject plain html atts).2 :=
    fun receiver subject plain html atts =>
      (sendEmail_unset_fails cfg o receiver subject plain html atts hunset henc).2
  refine ⟨?_, ⟨?_, ?_⟩, ⟨?_, ?_⟩, ⟨?_, ?_⟩⟩
  · have hsender : truthy cfg.emailSender = false ∨ truthy cfg.emailPassword = false := by
      rcases hunset with h | h <;> simp [truthy, h]
    rcases hsender with h | h <;>
      simp [Transactional.send_email, hty, hto, hdata, h, List.isEmpty_iff]
  · simp [LogService.send_log_email, hcsome, hct, h1]
  · simp only [LogService.send_log_email, hcsome]
    simp only [beq_iff_eq, if_neg hct, h1, if_neg Bool.false_ne_true]
    exact List.mem_cons_of_mem _ (h2 _ _ _ _ _)
  · simp [LogService.send_no_logs, EmailService.send_no_logs_email, h1]
  · simp only [LogService.send_no_logs, EmailService.send_no_logs_email, h1,
      if_neg Bool.false_ne_true]
    exact h2 _ _ _ _ _
  · simp [LogService.send_notification, EmailService.send_notification_email, h1]
  · simp only [LogService.send_notification, EmailService.send_notification_email, h1,
      if_neg Bool.false_ne_true]
    exact h2 _ _ _ _ _

/-- C2 witness: the amended behaviour at a concrete unset configuration and
concrete requests. -/
theorem c2_unconfigured_witness :
    Transactional.send_email Transactional.email_verification_template
      Transactional.fallback_device_verification_template
      Transactional.password_reset_template cfgUnset oracleAllOk
      { type := "email_verification", toAddr := "user@example.com",
        data := [("code", "123456")] } =
      (ApiResponse.error 500 "Email service not configured - Environment variables missing",
        [Effect.configCheck]) ∧
    ((LogService.send_log_email cfgUnset oracleAllOk (fun _ _ _ => []) []
        { logContent := some "hello", fileName := "logs.pdf",
          recipientEmail := "ops@example.com" }).1 =
        ApiResponse.error 500 "Failed to send email" ∧
      Effect.smtpConnect cfgUnset.smtpServer cfgUnset.smtpPort ∈
        (LogService.send_log_email cfgUnset oracleAllOk (fun _ _ _ => []) []
          { logContent := some "hello", fileName := "logs.pdf",
            recipientEmail := "ops@example.com" }).2) ∧
    ((LogService.send_no_logs cfgUnset oracleAllOk
        { recipientEmail := "ops@example.com", date := "2024-01-01" }).1 =
        ApiResponse.error 500 "Failed to send no-logs email" ∧
      Effect.smtpConnect cfgUnset.smtpServer cfgUnset.smtpPort ∈
        (LogService.send_no_logs cfgUnset oracleAllOk
          { recipientEmail := "ops@example.com", date := "2024-01-01" }).2) ∧
    ((LogService.send_notification cfgUnset oracleAllOk
        { receiverEmail := "ops@example.com", message := "hi" }).1 =
        ApiResponse.error 500 "Failed to send notification email" ∧
      Effect.smtpConnect cfgUnset.smtpServer cfgUnset.smtpPort ∈
        (LogService.send_notification cfgUnset oracleAllOk
          { receiverEmail := "ops@example.com", message := "hi" }).2) :=
  c2_unconfigured cfgUnset oracleAllOk
    Transactional.email_verification_template
    Transactional.fallback_device_verification_template
    Transactional.password_reset_template
    { type := "email_verification", toAddr := "user@example.com",
      data := [("code", "123456")] }
    { logContent := some "hello", fileName := "logs.pdf",
      recipientEmail := "ops@example.com" }
    { recipientEmail := "ops@example.com", date := "2024-01-01" }
    { receiverEmail := "ops@example.com", message := "hi" }
    (fun _ _ _ => []) []
    (Or.inl rfl) rfl
    (by decide) (by decide) (by decide)
    ⟨"hello", rfl, by decide⟩

/-- C3: both senders are total Boolean functions — the shared sender returns
`true` exactly when its `try:` body ran to completion (i.e. the message was
built, the session opened, authentication passed, and the transmission
succeeded), and returns `false` on every failure of the encoding, network or
authentication layer instead of propagating it; the transactional sender
likewise returns `true` exactly when its steps all succeed. -/
theorem c3_sender_never_raises (cfg : Config) (o : SmtpOracle)
    (receiver subject plain html toAddr textContent htmlContent : String)
    (atts : List (List Nat × String)) :
    ((EmailService.send_email cfg o receiver subject plain html atts).1 = true ↔
      (EmailService.sendEmailSteps cfg o receiver subject plain html atts).1 =
        Except.ok ()) ∧
    ((EmailService.send_email cfg o receiver subject plain html atts).1 = true ↔
      (o.encodeOk = true ∧ o.connectOk = true ∧ cfg.emailSender.isSome = true ∧
        cfg.emailPassword.isSome = true ∧ o.loginOk = true ∧ o.sendOk = true)) ∧
    ((Transactional.send_email_via_smtp cfg o toAddr subject textContent
        htmlContent).1 = true ↔
      (truthy cfg.emailSender = true ∧ truthy cfg.emailPassword = true ∧
        o.connectOk = true ∧ o.loginOk = true ∧ o.sendOk = true)) := by
  obtain ⟨e, cn, l, sd⟩ := o
  cases hs : cfg.emailSender.isSome <;> cases hp : cfg.emailPassword.isSome <;>
    cases hts : truthy cfg.emailSender <;> cases htp : truthy cfg.emailPassword <;>
      cases e <;> cases cn <;> cases l <;> cases sd <;>
        simp [EmailService.send_email, EmailService.sendEmailSteps,
          Transactional.send_email_via_smtp, hs, hp, hts, htp]

/-- C4 counterexample: a request whose three fields are present and
non-empty but whose type is unknown does NOT always yield 400 — when the
mail configuration is unset, the configuration check runs first and the
response is the Unconfigured 500. -/
theorem c4_counterexample :
    Transactional.send_email Transactional.email_verification_template
      Transactional.fallback_device_verification_template
      Transactional.password_reset_template cfgUnset oracleAllOk
      { type := "bogus", toAddr := "user@example.com", data := [("k", "v")] } =
    (ApiResponse.error 500 "Email service not configured - Environment variables missing",
      [Effect.configCheck]) := by
  decide

/-- C4 (amended): a `POST /api/send-email` request with a missing/empty
`type`, `to` or `data` fails with 400 before any configuration check,
template rendering or send (empty trace); a request with all three fields
non-empty, *a complete mail configuration*, and an unknown type fails with
400 after only the configuration check. -/
theorem c4_validation (ev dv pr : List (String × String) → TemplateResult)
    (cfg : Config) (o : SmtpOracle) (r : Transactional.EmailRequest) :
    (r.type = "" ∨ r.toAddr = "" ∨ r.data = [] →
      Transactional.send_email ev dv pr cfg o r =
        (ApiResponse.error 400 "Missing required fields: type, to, or data", [])) ∧
    (r.type ≠ "" → r.toAddr ≠ "" → r.data ≠ [] →
      truthy cfg.emailSender = true → truthy cfg.emailPassword = true →
      r.type ≠ "email_verification" → r.type ≠ "device_verification" →
      r.type ≠ "password_reset" →
      Transactional.send_email ev dv pr cfg o r =
        (ApiResponse.error 400 ("Unknown email type: " ++ r.type),
          [Effect.configCheck])) := by
  constructor
  · intro h
    rcases h with h | h | h <;>
      simp [Transactional.send_email, h, List.isEmpty_iff]
  · intro hty hto hdata hs hp hev hdv hpr
    simp [Transactional.send_email, Transactional.get_email_template,
      hty, hto, hdata, hs, hp, hev, hdv, hpr, List.isEmpty_iff]

/-- C4 witness: the amended behaviour at concrete requests — an empty `to`
yields the validation 400 with no effects, and an unknown type on a
configured service yields the unknown-type 400. -/
theorem c4_validation_witness :
    Transactional.send_email Transactional.email_verification_template
      Transactional.fallback_device_verification_template
      Transactional.password_reset_template cfgFull oracleAllOk
      { type := "email_verification", toAddr := "", data := [("code", "1")] } =
      (ApiResponse.error 400 "Missing required fields: type, to, or data", []) ∧
    Transactional.send_email Transactional.email_verification_template
      Transactional.fallback_device_verification_template
      Transactional.password_reset_template cfgFull oracleAllOk
      { type := "bogus", toAddr := "user@example.com", data := [("k", "v")] } =
      (ApiResponse.error 400 "Unknown email type: bogus", [Effect.configCheck]) :=
  ⟨(c4_validation Transactional.email_verification_template
      Transactional.fallback_device_verification_template
      Transactional.password_reset_template cfgFull oracleAllOk
      { type := "email_verification", toAddr := "", data := [("code", "1")] }).1
      (Or.inr (Or.inl rfl)),
   (c4_validation Transactional.email_verification_template
      Transactional.fallback_device_verification_template
      Transactional.password_reset_template cfgFull oracleAllOk
      { type := "bogus", toAddr := "user@example.com", data := [("k", "v")] }).2
      (by decide) (by decide) (by decide) rfl rfl
      (by decide) (by decide) (by decide)⟩

/-- C5 counterexample: with the configuration naming
`mail.example.com:2525`, the transactional sender still opens its session to
the hard-coded `smtp.gmail.com:465` and never to the configured target. -/
theorem c5_counterexample :
    (Transactional.send_email_via_smtp cfgCustom oracleAllOk
        "user@example.com" "s" "t" "h").2 =
      [Effect.smtpConnect "smtp.gmail.com" 465, Effect.smtpLogin,
        Effect.smtpSend] ∧
    Effect.smtpConnect "mail.example.com" 2525 ∉
      (Transactional.send_email_via_smtp cfgCustom oracleAllOk
        "user@example.com" "s" "t" "h").2 := by
  decide

/-- C5 (amended): the shared sender of the log service opens its SSL session
to the configured SMTP host and port, whose resolution defaults to
`smtp.gmail.com:465` when `SMTP_SERVER`/`SMTP_PORT` are absent; the
transactional service's own sender instead always connects to the
source-fixed `smtp.gmail.com:465`, ignoring the configured host and port. -/
theorem c5_smtp_target (cfg : Config) (o : SmtpOracle)
    (toAddr subject textContent htmlContent receiver plain html : String)
    (atts : List (List Nat × String)) (env : List (String × String)) :
    (truthy cfg.emailSender = true → truthy cfg.emailPassword = true →
      Effect.smtpConnect "smtp.gmail.com" 465 ∈
        (Transactional.send_email_via_smtp cfg o toAddr subject textContent
          htmlContent).2) ∧
    (o.encodeOk = true →
      Effect.smtpConnect cfg.smtpServer cfg.smtpPort ∈
        (EmailService.send_email cfg o receiver subject plain html atts).2) ∧
    (assocLookup env "SMTP_SERVER" = none → assocLookup env "SMTP_PORT" = none →
      resolveConfig env = some
        { emailSender := assocLookup env "EMAIL_SENDER"
          emailPassword := assocLookup env "EMAIL_PASSWORD"
          smtpServer := "smtp.gmail.com", smtpPort := 465 }) := by
  refine ⟨?_, ?_, ?_⟩
  · intro hs hp
    cases hc : o.connectOk <;> cases hl : o.loginOk <;> cases hd : o.sendOk <;>
      simp [Transactional.send_email_via_smtp, hs, hp, hc, hl, hd]
  · intro henc
    cases hc : o.connectOk <;>
      cases hl : (cfg.emailSender.isSome && cfg.emailPassword.isSome && o.loginOk) <;>
        cases hd : o.sendOk <;>
          simp [EmailService.send_email, EmailService.sendEmailSteps, henc, hc, hl, hd]
  · intro hsv hpt
    simp only [resolveConfig, hsv, hpt, Option.getD_none]
    rfl

/-- C5 witness: the amended behaviour at the non-default configuration
`cfgCustom` and an environment with no SMTP variables. -/
theorem c5_smtp_target_witness :
    (truthy cfgCustom.emailSender = true ∧ truthy cfgCustom.emailPassword = true ∧
      Effect.smtpConnect "smtp.gmail.com" 465 ∈
        (Transactional.send_email_via_smtp cfgCustom oracleAllOk
          "user@example.com" "s" "t" "h").2) ∧
    Effect.smtpConnect cfgCustom.smtpServer cfgCustom.smtpPort ∈
      (EmailService.send_email cfgCustom oracleAllOk
        "user@example.com" "s" "p" "h" []).2 ∧
    resolveConfig [("EMAIL_SENDER", "sender@example.com")] = some
      { emailSender := assocLookup [("EMAIL_SENDER", "sender@example.com")] "EMAIL_SENDER"
        emailPassword := assocLookup [("EMAIL_SENDER", "sender@example.com")] "EMAIL_PASSWORD"
        smtpServer := "smtp.gmail.com", smtpPort := 465 } :=
  ⟨⟨rfl, rfl,
    (c5_smtp_target cfgCustom oracleAllOk "user@example.com" "s" "t" "h"
      "user@example.com" "p" "h" [] [("EMAIL_SENDER", "sender@example.com")]).1 rfl rfl⟩,
   (c5_smtp_target cfgCustom oracleAllOk "user@example.com" "s" "t" "h"
      "user@example.com" "p" "h" [] [("EMAIL_SENDER", "sender@example.com")]).2.1 rfl,
   (c5_smtp_target cfgCustom oracleAllOk "user@example.com" "s" "t" "h"
      "user@example.com" "p" "h" [] [("EMAIL_SENDER", "sender@example.com")]).2.2
      (by decide) (by decide)⟩

theorem ska_of_eq (r : KeepAlive.PingOutcome)
    (h : r = KeepAlive.PingOutcome.status 200) :
    KeepAlive.send_keep_alive r = Except.ok () := by
  subst h; simp [KeepAlive.send_keep_alive]

theorem ska_of_ne (r : KeepAlive.PingOutcome)
    (h : r ≠ KeepAlive.PingOutcome.status 200) :
    ∃ e, KeepAlive.send_keep_alive r = Except.error e := by
  cases r with
  | transportError => exact ⟨_, rfl⟩
  | status c =>
    have hc : ¬ c = 200 := fun hc => h (by rw [hc])
    exact ⟨"Status code: " ++ toString c, by simp [KeepAlive.send_keep_alive, hc]⟩

/-- C6: the keep-alive job never raises to its invoker (its outcome is
always `ok`); with no liveness URL it issues no request; with a URL it
issues between 1 and 3 GETs recording `responses 0`, `responses 1`,
`responses 2` in order, every attempt before the last is a failure
(non-200 or transport error), an early stop happens only on a 200, and if
the first three outcomes are all failures exactly 3 attempts occur. -/
theorem c6_keep_alive (url : Option String)
    (responses : Nat → KeepAlive.PingOutcome) :
    ∃ t, KeepAlive.keep_alive_job url responses = Except.ok t ∧
      t.length ≤ 3 ∧
      (url = none → t = []) ∧
      (url ≠ none →
        (t = [responses 0] ∨ t = [responses 0, responses 1] ∨
          t = [responses 0, responses 1, responses 2]) ∧
        (∀ j, j + 1 < t.length → responses j ≠ KeepAlive.PingOutcome.status 200) ∧
        (t.length < 3 →
          responses (t.length - 1) = KeepAlive.PingOutcome.status 200) ∧
        ((∀ j, j < 3 → responses j ≠ KeepAlive.PingOutcome.status 200) →
          t.length = 3)) := by
  cases url with
  | none =>
    refine ⟨[], rfl, by simp, fun _ => rfl, fun h => absurd rfl h⟩
  | some u =>
    refine ⟨KeepAlive.keepAliveLoop responses 0 3, rfl, ?_⟩
    by_cases h0 : responses 0 = KeepAlive.PingOutcome.status 200
    · have hloop : KeepAlive.keepAliveLoop responses 0 3 = [responses 0] := by
        simp [KeepAlive.keepAliveLoop, ska_of_eq _ h0]
      rw [hloop]
      refine ⟨by simp, by simp, fun _ => ?_⟩
      refine ⟨Or.inl rfl, ?_, fun _ => h0, fun hall => absurd h0 (hall 0 (by omega))⟩
      intro j hj
      simp only [List.length_cons, List.length_nil] at hj
      exact absurd hj (by omega)
    · obtain ⟨e0, he0⟩ := ska_of_ne _ h0
      by_cases h1 : responses 1 = KeepAlive.PingOutcome.status 200
      · have hloop : KeepAlive.keepAliveLoop responses 0 3 =
            [responses 0, responses 1] := by
          simp [KeepAlive.keepAliveLoop, he0, ska_of_eq _ h1]
        rw [hloop]
        refine ⟨by simp, by simp, fun _ => ?_⟩
        refine ⟨Or.inr (Or.inl rfl), ?_, fun _ => h1,
          fun hall => absurd h1 (hall 1 (by omega))⟩
        intro j hj
        simp only [List.length_cons, List.length_nil] at hj
        have hj0 : j = 0 := by omega
        rw [hj0]
        exact h0
      · obtain ⟨e1, he1⟩ := ska_of_ne _ h1
        have hloop : KeepAlive.keepAliveLoop responses 0 3 =
            [responses 0, responses 1, responses 2] := by
          cases h2 : KeepAlive.send_keep_alive (responses 2) <;>
            simp [KeepAlive.keepAliveLoop, he0, he1, h2]
        rw [hloop]
        refine ⟨by simp, by simp, fun _ => ?_⟩
        refine ⟨Or.inr (Or.inr rfl), ?_, fun hlt => absurd hlt (by simp), fun _ => rfl⟩
        intro j hj
        simp only [List.length_cons, List.length_nil] at hj
        have hj01 : j = 0 ∨ j = 1 := by omega
        rcases hj01 with rfl | rfl
        · exact h0
        · exact h1

/-- C7: a `POST /send-log-email` request whose `logContent` is absent,
empty, or whitespace-only is rejected with 400 and an empty effect trace —
no PDF rendering and no send attempt, for every configuration, oracle, PDF
renderer and local log state. -/
theorem c7_empty_log_content (cfg : Config) (o : SmtpOracle)
    (pdfFn : String → String → String → List Nat)
    (serviceLogs : List (List Nat × String)) (r : LogService.LogRequest)
    (h : r.logContent = none ∨ ∃ c, r.logContent = some c ∧ pyStrip c = "") :
    LogService.send_log_email cfg o pdfFn serviceLogs r =
      (ApiResponse.error 400 "Empty log content received.", []) := by
  rcases h with h | ⟨c, hc, hstrip⟩
  · simp [LogService.send_log_email, h]
  · simp [LogService.send_log_email, hc, hstrip]

/-- C7 witness: the rejection at a concrete whitespace-only request. -/
theorem c7_empty_log_content_witness :
    LogService.send_log_email cfgFull oracleAllOk (fun _ _ _ => []) []
      { logContent := some "   \n  ", fileName := "logs.pdf",
        recipientEmail := "ops@example.com" } =
      (ApiResponse.error 400 "Empty log content received.", []) :=
  c7_empty_log_content cfgFull oracleAllOk (fun _ _ _ => []) []
    { logContent := some "   \n  ", fileName := "logs.pdf",
      recipientEmail := "ops@example.com" }
    (Or.inr ⟨"   \n  ", rfl, by decide⟩)

/-- C8: the device-verification renderer yields the exact subject
`"Device Verification Code - Quantum Robots"`; the `verificationCode` value
occurs verbatim in both the text and the HTML body, as do the 10-minute
expiry sentence and the ignore-if-not-you disclaimer; and rendering with no
fields equals rendering with every field defaulted — `""` for all fields
except `supportEmail` (`"support@quantumrobots.com"`) and `year`
(`"2024"`). -/
theorem c8_device_verification_template (data : List (String × String)) :
    (device_verification_template data).subject =
      "Device Verification Code - Quantum Robots" ∧
    containsStr (device_verification_template data).text
      (dataGet data "verificationCode" "") ∧
    containsStr (device_verification_template data).html
      (dataGet data "verificationCode" "") ∧
    containsStr (device_verification_template data).text
      "This code will expire in 10 minutes." ∧
    containsStr (device_verification_template data).html
      "This code will expire in 10 minutes." ∧
    containsStr (device_verification_template data).text
      "If you didn\x27t attempt to log in from this device, please ignore this email." ∧
    containsStr (device_verification_template data).html
      "If you didn\x27t attempt to log in from this device, please ignore this email." ∧
    device_verification_template [] =
      device_verification_template
        [("username", ""), ("deviceInfo", ""), ("ip", ""), ("country", ""),
         ("timestamp", ""), ("verificationCode", ""),
         ("supportEmail", "support@quantumrobots.com"), ("year", "2024")] := by
  refine ⟨rfl, ?_, ?_, ?_, ?_, ?_, ?_, rfl⟩ <;>
    simp only [device_verification_template] <;>
    repeat
      first
        | exact containsStr_right _ _ _ (containsStr_refl _)
        | apply containsStr_left

/-- C9: `get_logger` is idempotent — starting from a registry in which
`name` has no handlers, the first acquisition attaches exactly one sink, and
a second acquisition returns the same handler list and leaves the registry
untouched. -/
theorem c9_get_logger_idempotent (envLabel : String)
    (s : LoggerConfig.LoggerState) (name : String) (level : Nat)
    (h : s name = []) :
    (LoggerConfig.get_logger envLabel
        (LoggerConfig.get_logger envLabel s name level).2 name level).1 =
      (LoggerConfig.get_logger envLabel s name level).1 ∧
    (LoggerConfig.get_logger envLabel
        (LoggerConfig.get_logger envLabel s name level).2 name level).2 =
      (LoggerConfig.get_logger envLabel s name level).2 ∧
    (LoggerConfig.get_logger envLabel s name level).1.length = 1 := by
  simp [LoggerConfig.get_logger, h]

/-- C9 witness: idempotent acquisition for a concrete fresh name in both a
development and a non-development registry. -/
theorem c9_get_logger_idempotent_witness :
    ((LoggerConfig.get_logger "development"
        (LoggerConfig.get_logger "development" (fun _ => []) "email_service" 20).2
        "email_service" 20).1 =
      (LoggerConfig.get_logger "development" (fun _ => []) "email_service" 20).1 ∧
    (LoggerConfig.get_logger "development"
        (LoggerConfig.get_logger "development" (fun _ => []) "email_service" 20).2
        "email_service" 20).2 =
      (LoggerConfig.get_logger "development" (fun _ => []) "email_service" 20).2 ∧
    (LoggerConfig.get_logger "development" (fun _ => []) "email_service" 20).1.length = 1) ∧
    ((LoggerConfig.get_logger "production"
        (LoggerConfig.get_logger "production" (fun _ => []) "email_service" 20).2
        "email_service" 20).1 =
      (LoggerConfig.get_logger "production" (fun _ => []) "email_service" 20).1 ∧
    (LoggerConfig.get_logger "production"
        (LoggerConfig.get_logger "production" (fun _ => []) "email_service" 20).2
        "email_service" 20).2 =
      (LoggerConfig.get_logger "production" (fun _ => []) "email_service" 20).2 ∧
    (LoggerConfig.get_logger "production" (fun _ => []) "email_service" 20).1.length = 1) :=
  ⟨c9_get_logger_idempotent "development" (fun _ => []) "email_service" 20 rfl,
   c9_get_logger_idempotent "production" (fun _ => []) "email_service" 20 rfl⟩

/-- C10: a `POST /api/send-email` request with non-empty `type` and `to` but
an empty `data` mapping is rejected with 400 and an empty effect trace (no
template is rendered), although each supported renderer in the repository —
the device-verification module template and the three in-file fallbacks —
returns a result on the empty mapping, every field being optional with a
default. -/
theorem c10_empty_data_rejected
    (ev dv pr : List (String × String) → TemplateResult)
    (cfg : Config) (o : SmtpOracle) (ty toA : String)
    (_hty : ty ≠ "") (_hto : toA ≠ "") :
    Transactional.send_email ev dv pr cfg o
        { type := ty, toAddr := toA, data := [] } =
      (ApiResponse.error 400 "Missing required fields: type, to, or data", []) ∧
    (["email_verification", "device_verification", "password_reset"].all
      (fun t => isOkB (Transactional.get_email_template
        Transactional.email_verification_template
        device_verification_template
        Transactional.password_reset_template t []))) = true ∧
    (["email_verification", "device_verification", "password_reset"].all
      (fun t => isOkB (Transactional.get_email_template
        Transactional.email_verification_template
        Transactional.fallback_device_verification_template
        Transactional.password_reset_template t []))) = true := by
  refine ⟨?_, rfl, rfl⟩
  simp [Transactional.send_email]

/-- C10 witness: the rejection at a concrete request with empty data. -/
theorem c10_empty_data_rejected_witness :
    Transactional.send_email Transactional.email_verification_template
        device_verification_template Transactional.password_reset_template
        cfgFull oracleAllOk
        { type := "device_verification", toAddr := "user@example.com", data := [] } =
      (ApiResponse.error 400 "Missing required fields: type, to, or data", []) ∧
    (["email_verification", "device_verification", "password_reset"].all
      (fun t => isOkB (Transactional.get_email_template
        Transactional.email_verification_template
        device_verification_template
        Transactional.password_reset_template t []))) = true ∧
    (["email_verification", "device_verification", "password_reset"].all
      (fun t => isOkB (Transactional.get_email_template
        Transactional.email_verification_template
        Transactional.fallback_device_verification_template
        Transactional.password_reset_template t []))) = true :=
  c10_empty_data_rejected Transactional.email_verification_template
    device_verification_template Transactional.password_reset_template
    cfgFull oracleAllOk "device_verification" "user@example.com"
    (by decide) (by decide)

/-- C1 witness: the amended debug-endpoint behaviour at a concrete
environment and a concrete reported entry. -/
theorem c1_debug_endpoint_witness :
    ("GET", "/debug") ∈ Transactional.routes ∧
    (strContainsB "EMAIL_SENDER" "EMAIL" || strContainsB "EMAIL_SENDER" "SMTP" ||
      strContainsB "EMAIL_SENDER" "RAILWAY") = true ∧
    (strContainsB "EMAIL_SENDER" "PASSWORD" = true →
      "alice@example.com" = "*****") ∧
    (strContainsB "EMAIL_SENDER" "PASSWORD" = false →
      ("EMAIL_SENDER", "alice@example.com") ∈
        [("EMAIL_SENDER", "alice@example.com")]) :=
  ⟨c1_debug_endpoint.1.1,
   ((c1_debug_endpoint.2 [("EMAIL_SENDER", "alice@example.com")]).2.2.2
     ("EMAIL_SENDER", "alice@example.com") (by decide))⟩

/-- C6 witness: the keep-alive job at a concrete always-503 endpoint. -/
theorem c6_keep_alive_witness :
    ∃ t, KeepAlive.keep_alive_job (some "https://example.com/health")
        (fun _ => KeepAlive.PingOutcome.status 503) = Except.ok t ∧
      t.length ≤ 3 ∧
      (some "https://example.com/health" = none → t = []) ∧
      (some "https://example.com/health" ≠ none →
        (t = [KeepAlive.PingOutcome.status 503] ∨
          t = [KeepAlive.PingOutcome.status 503, KeepAlive.PingOutcome.status 503] ∨
          t = [KeepAlive.PingOutcome.status 503, KeepAlive.PingOutcome.status 503,
            KeepAlive.PingOutcome.status 503]) ∧
        (∀ j, j + 1 < t.length →
          (fun _ => KeepAlive.PingOutcome.status 503) j ≠
            KeepAlive.PingOutcome.status 200) ∧
        (t.length < 3 →
          (fun _ => KeepAlive.PingOutcome.status 503) (t.length - 1) =
            KeepAlive.PingOutcome.status 200) ∧
        ((∀ j, j < 3 →
            (fun _ => KeepAlive.PingOutcome.status 503) j ≠
              KeepAlive.PingOutcome.status 200) →
          t.length = 3)) :=
  c6_keep_alive (some "https://example.com/health")
    (fun _ => KeepAlive.PingOutcome.status 503)
